import Mathlib

/-!
A shallow embedding of `plugins/modules/channel_config.py`: the JSON-like
configuration trees the module builds, the `create` / `fetch` /
`compute_update` compare-and-write logic, the signature dedup logic of
`sign_update` and `sign_update_organizations`, and the temporary-resource
lifecycle of the operations.  Pure data is modelled directly; external
collaborators (the protobuf transcoder, the `configtxlator` differ and the
`peer` signer) are modelled from the spec's description of their contracts,
as noted on each definition.
-/

namespace ChannelConfig

/-- A JSON-like value as built by the Python module: strings, numbers
(all numbers in the module are naturals), arrays, and insertion-ordered
dictionaries (Python 3.7+ dicts preserve insertion order). -/
inductive JsonV : Type where
  | s : String → JsonV
  | n : Nat → JsonV
  | arr : List JsonV → JsonV
  | obj : List (String × JsonV) → JsonV

def emptyObj : JsonV := JsonV.obj []

/- Boolean structural equality on `JsonV` (used because automatic
`DecidableEq` derivation is unavailable for this nested inductive). -/
mutual

def jeq : JsonV → JsonV → Bool
  | .s a, .s b => a == b
  | .n a, .n b => a == b
  | .arr a, .arr b => jeqArr a b
  | .obj a, .obj b => jeqObj a b
  | _, _ => false

def jeqArr : List JsonV → List JsonV → Bool
  | [], [] => true
  | a :: ar, b :: br => jeq a b && jeqArr ar br
  | _, _ => false

def jeqObj : List (String × JsonV) → List (String × JsonV) → Bool
  | [], [] => true
  | (ka, va) :: ar, (kb, vb) :: br => ka == kb && jeq va vb && jeqObj ar br
  | _, _ => false

end

mutual

def jeq_refl : ∀ a : JsonV, jeq a a = true
  | .s v => by simp [jeq]
  | .n v => by simp [jeq]
  | .arr l => by simp [jeq, jeqArr_refl l]
  | .obj l => by simp [jeq, jeqObj_refl l]

def jeqArr_refl : ∀ l : List JsonV, jeqArr l l = true
  | [] => by simp [jeqArr]
  | j :: r => by simp [jeqArr, jeq_refl j, jeqArr_refl r]

def jeqObj_refl : ∀ l : List (String × JsonV), jeqObj l l = true
  | [] => by simp [jeqObj]
  | (k, v) :: r => by simp [jeqObj, jeq_refl v, jeqObj_refl r]

end

/-- Dictionary lookup: the value stored under `key`, if any. -/
def findKey? : List (String × JsonV) → String → Option JsonV
  | [], _ => none
  | (k, v) :: rest, key => if k = key then some v else findKey? rest key

/-- Python dict assignment `d[key] = v`: replaces in place (keeping the key's
position) or appends at the end, as insertion-ordered dicts do. -/
def putKey : List (String × JsonV) → String → JsonV → List (String × JsonV)
  | [], key, v => [(key, v)]
  | (k, w) :: rest, key, v =>
      if k = key then (k, v) :: rest else (k, w) :: putKey rest key v

/-- Python `d.setdefault(key, dflt)` followed by the mutations `f` applied to
the returned (aliased) child: if `key` is present, `f` is applied to the
existing child in place; otherwise `(key, f dflt)` is appended. -/
def modKey : List (String × JsonV) → String → JsonV → (JsonV → JsonV) → List (String × JsonV)
  | [], key, dflt, f => [(key, f dflt)]
  | (k, w) :: rest, key, dflt, f =>
      if k = key then (k, f w) :: rest else (k, w) :: modKey rest key dflt f

def JsonV.get? : JsonV → String → Option JsonV
  | .obj l, key => findKey? l key
  | _, _ => none

def JsonV.put : JsonV → String → JsonV → JsonV
  | .obj l, key, v => .obj (putKey l key v)
  | j, _, _ => j

def JsonV.mod : JsonV → String → JsonV → (JsonV → JsonV) → JsonV
  | .obj l, key, dflt, f => .obj (modKey l key dflt f)
  | j, _, _, _ => j

/-- Lookup along a path of dictionary keys. -/
def JsonV.path : JsonV → List String → Option JsonV
  | j, [] => some j
  | j, key :: rest =>
      match j.get? key with
      | some v => JsonV.path v rest
      | none => none

/-- Lexicographic comparison of character lists by code point. -/
def charsLe : List Char → List Char → Bool
  | [], _ => true
  | _ :: _, [] => false
  | a :: ar, b :: br =>
      if a.toNat < b.toNat then true
      else if b.toNat < a.toNat then false
      else charsLe ar br

def keyLe (a b : String) : Bool := charsLe a.data b.data

def insortKey (p : String × JsonV) : List (String × JsonV) → List (String × JsonV)
  | [] => [p]
  | q :: rest => if keyLe p.1 q.1 then p :: q :: rest else q :: insortKey p rest

def sortKeys (l : List (String × JsonV)) : List (String × JsonV) :=
  l.foldr insortKey []

def isEmptyColl : JsonV → Bool
  | .obj [] => true
  | .arr [] => true
  | _ => false

/- Canonical form of a tree under the spec's equality: dictionary entries are
sorted by key (map key order is irrelevant) and entries holding an empty
collection are dropped (absent and empty collections are identified). -/
mutual

def normalize : JsonV → JsonV
  | .s v => .s v
  | .n v => .n v
  | .arr l => .arr (normalizeArr l)
  | .obj l => .obj (sortKeys (normalizeEntries l))

def normalizeArr : List JsonV → List JsonV
  | [] => []
  | j :: r => normalize j :: normalizeArr r

def normalizeEntries : List (String × JsonV) → List (String × JsonV)
  | [] => []
  | (k, v) :: r =>
      let nv := normalize v
      if isEmptyColl nv then normalizeEntries r else (k, nv) :: normalizeEntries r

end

/-- Modelled from the spec: `diff_dicts` (from `module_utils/dict_utils.py`,
which is not part of the given sources) decides whether two configuration
trees differ semantically — content-based structural comparison in which map
key order and absent-vs-empty collections do not count as differences, while
any differing value does.  Returns `true` when the trees differ. -/
def diff_dicts (a b : JsonV) : Bool :=
  !(jeq (normalize a) (normalize b))

/-- Modelled from the spec: the wire form produced by the binary/JSON
transcoder collaborator (`json_to_proto` / `proto_to_json` from
`module_utils/proto_utils.py`, not part of the given sources).  A file on disk
holds either bytes that decode as the expected message type (carrying the
corresponding JSON tree) or bytes that fail to parse. -/
inductive FileData where
  | proto : JsonV → FileData
  | garbage : FileData

/-- Modelled from the spec: serialization by the transcoder collaborator. -/
def json_to_proto (j : JsonV) : FileData := FileData.proto j

/-- Modelled from the spec: deserialization by the transcoder collaborator;
fails (raises, modelled as `none`) on bytes that do not decode. -/
def proto_to_json : FileData → Option JsonV
  | .proto j => some j
  | .garbage => none

/-! ### URL parsing (`urllib.parse.urlparse` as used on ordering node API URLs) -/

/-- Drop everything up to and including the first `://`. -/
def dropScheme : List Char → List Char
  | [] => []
  | ':' :: '/' :: '/' :: rest => rest
  | _ :: rest => dropScheme rest

/-- The network-location part of a URL of the form `scheme://netloc/...`. -/
def netlocOf (url : String) : List Char :=
  (dropScheme url.data).takeWhile (fun c => c != '/')

/-- Split a netloc at its last colon into host part and optional port part. -/
def splitAtLastColon (cs : List Char) : List Char × Option (List Char) :=
  if cs.contains ':' then
    let rev := cs.reverse
    let portRev := rev.takeWhile (fun c => c != ':')
    ((rev.drop (portRev.length + 1)).reverse, some portRev.reverse)
  else (cs, none)

def isDigits (cs : List Char) : Bool :=
  !cs.isEmpty && cs.all (fun c => c.isDigit)

def digitsToNat (cs : List Char) : Nat :=
  cs.foldl (fun n c => n * 10 + (c.toNat - 48)) 0

/-- `urlparse(url).port`: the numeric port when an explicit valid port is
present, `none` otherwise. -/
def urlPort (url : String) : Option Nat :=
  match (splitAtLastColon (netlocOf url)).2 with
  | some pcs => if isDigits pcs && digitsToNat pcs ≤ 65535 then some (digitsToNat pcs) else none
  | none => none

/-- `urlparse(url).hostname`: the host part, lowercased. -/
def urlHostname (url : String) : String :=
  String.mk ((splitAtLastColon (netlocOf url)).1.map Char.toLower)

/-- Python `x or dflt` on an optional number (`None` and `0` are falsy). -/
def pyOrNat (o : Option Nat) (dflt : Nat) : Nat :=
  match o with
  | some v => if v != 0 then v else dflt
  | none => dflt

/-- Python `x or dflt` on an optional string (`None` and `""` are falsy). -/
def pyOrStr (o : Option String) (dflt : String) : String :=
  match o with
  | some v => if v != "" then v else dflt
  | none => dflt

/-! ### Inputs to `create` -/

/-- An ordering service node descriptor as resolved by the console
collaborator: the fields of it that `create` reads. -/
structure OrderingNode where
  api_url : String
  client_tls_cert : Option String
  server_tls_cert : Option String
  tls_cert : String

/-- The `parameters.batch_size` suboptions. -/
structure BatchSizeParams where
  max_message_count : Option Nat
  absolute_max_bytes : Option Nat
  preferred_max_bytes : Option Nat

/-- The inputs of a `create` invocation after console/identity resolution:
organizations are their MSP IDs, policies are already resolved to their JSON
form (a missing or invalid policy is a fatal input error before building). -/
structure CreateOptions where
  name : String
  organizations : List String
  policies : List (String × JsonV)
  application_capability : String
  channel_capability : Option String
  orderer_capability : Option String
  batch_size : Option BatchSizeParams
  batch_timeout : Option String
  acls : Option (List (String × String))
  ordering_service_nodes : Option (List OrderingNode)

/-! ### The `create` builder (`channel_config.py` lines 350-565) -/

/-- The initial `config_update_json` literal (lines 353-396). -/
def initialConfigUpdate (name application_capability : String) : JsonV :=
  .obj [
    ("channel_id", .s name),
    ("read_set", .obj [
      ("groups", .obj [("Application", .obj [("groups", emptyObj)])]),
      ("values", .obj [("Consortium", .obj [
        ("value", .obj [("name", .s "SampleConsortium")])])])]),
    ("write_set", .obj [
      ("groups", .obj [("Application", .obj [
        ("groups", emptyObj),
        ("mod_policy", .s "Admins"),
        ("policies", emptyObj),
        ("values", .obj [("Capabilities", .obj [
          ("mod_policy", .s "Admins"),
          ("value", .obj [("capabilities", .obj [(application_capability, emptyObj)])])])]),
        ("version", .n 1)])]),
      ("values", .obj [("Consortium", .obj [
        ("value", .obj [("name", .s "SampleConsortium")])])])])]

/-- Lines 399-401: one organization added to the `Application` groups of both
the read set and the write set, keyed by MSP ID. -/
def addOrganization (msp_id : String) (cu : JsonV) : JsonV :=
  let f := fun (s : JsonV) =>
    s.mod "groups" emptyObj (fun g =>
      g.mod "Application" emptyObj (fun app =>
        app.mod "groups" emptyObj (fun gs => gs.put msp_id emptyObj)))
  (cu.mod "read_set" emptyObj f).mod "write_set" emptyObj f

/-- Lines 404-408: one named policy added to the `Application` policies of the
write set. -/
def addPolicy (policyName : String) (policy : JsonV) (cu : JsonV) : JsonV :=
  cu.mod "write_set" emptyObj (fun ws =>
    ws.mod "groups" emptyObj (fun g =>
      g.mod "Application" emptyObj (fun app =>
        app.mod "policies" emptyObj (fun ps =>
          ps.put policyName (.obj [("mod_policy", .s "Admins"), ("policy", policy)])))))

/-- Lines 415-426: the channel capability. -/
def addChannelCapability (channel : String) (cu : JsonV) : JsonV :=
  let cu := cu.mod "read_set" emptyObj (fun rs =>
    rs.mod "values" emptyObj (fun vs => vs.mod "Capabilities" emptyObj id))
  cu.mod "write_set" emptyObj (fun ws =>
    ws.mod "values" emptyObj (fun vs =>
      vs.put "Capabilities" (.obj [
        ("mod_policy", .s "Admins"),
        ("value", .obj [("capabilities", .obj [(channel, emptyObj)])]),
        ("version", .n 1)])))

/-- Lines 429-442: the orderer capability. -/
def addOrdererCapability (orderer : String) (cu : JsonV) : JsonV :=
  let cu := cu.mod "read_set" emptyObj (fun rs =>
    rs.mod "groups" emptyObj (fun g =>
      g.mod "Orderer" emptyObj (fun og =>
        og.mod "values" emptyObj (fun vs => vs.mod "Capabilities" emptyObj id))))
  cu.mod "write_set" emptyObj (fun ws =>
    ws.mod "groups" emptyObj (fun g =>
      g.mod "Orderer" emptyObj (fun og =>
        og.mod "values" emptyObj (fun vs =>
          vs.put "Capabilities" (.obj [
            ("mod_policy", .s "Admins"),
            ("value", .obj [("capabilities", .obj [(orderer, emptyObj)])]),
            ("version", .n 1)])))))

/-- The default `BatchSize` write-set node of line 454-458. -/
def batchSizeDefault : JsonV :=
  .obj [("mod_policy", .s "Admins"), ("value", emptyObj), ("version", .n 1)]

/-- Lines 459-461: the per-key loop over `batch_size`, in dict insertion order
(`max_message_count`, `absolute_max_bytes`, `preferred_max_bytes`); a key is
written only when its value is truthy (present and nonzero). -/
def batchSizeWrites (b : BatchSizeParams) (v : JsonV) : JsonV :=
  let step := fun (key : String) (o : Option Nat) (v : JsonV) =>
    match o with
    | some x => if x != 0 then v.mod "value" emptyObj (fun w => w.put key (.n x)) else v
    | none => v
  step "preferred_max_bytes" b.preferred_max_bytes
    (step "absolute_max_bytes" b.absolute_max_bytes
      (step "max_message_count" b.max_message_count v))

/-- Lines 450-461: the batch size parameters. -/
def addBatchSize (b : BatchSizeParams) (cu : JsonV) : JsonV :=
  let cu := cu.mod "read_set" emptyObj (fun rs =>
    rs.mod "groups" emptyObj (fun g =>
      g.mod "Orderer" emptyObj (fun og =>
        og.mod "values" emptyObj (fun vs => vs.mod "BatchSize" emptyObj id))))
  cu.mod "write_set" emptyObj (fun ws =>
    ws.mod "groups" emptyObj (fun g =>
      g.mod "Orderer" emptyObj (fun og =>
        og.mod "values" emptyObj (fun vs =>
          vs.mod "BatchSize" batchSizeDefault (batchSizeWrites b)))))

/-- Lines 464-475: the batch timeout. -/
def addBatchTimeout (batch_timeout : String) (cu : JsonV) : JsonV :=
  let cu := cu.mod "read_set" emptyObj (fun rs =>
    rs.mod "groups" emptyObj (fun g =>
      g.mod "Orderer" emptyObj (fun og =>
        og.mod "values" emptyObj (fun vs => vs.mod "BatchTimeout" emptyObj id))))
  cu.mod "write_set" emptyObj (fun ws =>
    ws.mod "groups" emptyObj (fun g =>
      g.mod "Orderer" emptyObj (fun og =>
        og.mod "values" emptyObj (fun vs =>
          vs.put "BatchTimeout" (.obj [
            ("mod_policy", .s "Admins"),
            ("value", .obj [("timeout", .s batch_timeout)]),
            ("version", .n 1)])))))

/-- The default `ACLs` write-set node of lines 482-488 — note its version is
the literal `0`, unlike every other value node built by `create`. -/
def aclsDefault : JsonV :=
  .obj [("mod_policy", .s "Admins"),
        ("value", .obj [("acls", emptyObj)]),
        ("version", .n 0)]

/-- Lines 477-490: the ACLs.  Nothing is added to the read set here. -/
def addAcls (acls : List (String × String)) (cu : JsonV) : JsonV :=
  cu.mod "write_set" emptyObj (fun ws =>
    ws.mod "groups" emptyObj (fun g =>
      g.mod "Application" emptyObj (fun app =>
        app.mod "values" emptyObj (fun vs =>
          vs.mod "ACLs" aclsDefault (fun av =>
            acls.foldl (fun av p =>
              av.mod "value" emptyObj (fun v =>
                v.mod "acls" emptyObj (fun a =>
                  a.put p.1 (.obj [("policy_ref", .s p.2)])))) av)))))

/-- Lines 500-511: the consenter built from one ordering service node. -/
def consenterOf (node : OrderingNode) : JsonV :=
  .obj [
    ("host", .s (urlHostname node.api_url)),
    ("port", .n (pyOrNat (urlPort node.api_url) 443)),
    ("client_tls_cert", .s (pyOrStr node.client_tls_cert node.tls_cert)),
    ("server_tls_cert", .s (pyOrStr node.server_tls_cert node.tls_cert))]

/-- Lines 499-511: the consenter list — one `append` per input node. -/
def consentersOf (nodes : List OrderingNode) : List JsonV :=
  nodes.foldl (fun consenters node => consenters ++ [consenterOf node]) []

/-- The `host:port` string a node contributes to `orderer_addresses`
(line 519). -/
def hostPortOf (node : OrderingNode) : String :=
  urlHostname node.api_url ++ ":" ++ toString (pyOrNat (urlPort node.api_url) 443)

/-- Lines 514-519: the content of the Python set `orderer_addresses` — one
`add` per node, duplicates collapsed.  The list records the distinct elements
in first-insertion order; the order in which CPython enumerates the set is a
separate concern, see `addOsn`'s `setOrder` parameter. -/
def addressSet (nodes : List OrderingNode) : List String :=
  nodes.foldl (fun orderer_addresses node =>
    if hostPortOf node ∈ orderer_addresses then orderer_addresses
    else orderer_addresses ++ [hostPortOf node]) []

/-- The `ConsensusType` write-set node of lines 525-541. -/
def consensusTypeValue (consenters : List JsonV) : JsonV :=
  .obj [
    ("mod_policy", .s "Admins"),
    ("value", .obj [
      ("type", .s "etcdraft"),
      ("metadata", .obj [
        ("consenters", .arr consenters),
        ("options", .obj [
          ("tick_interval", .s "500ms"),
          ("election_tick", .n 10),
          ("heartbeat_tick", .n 1),
          ("max_inflight_blocks", .n 5),
          ("snapshot_interval_size", .n 20971520)])])]),
    ("version", .n 1)]

/-- The `OrdererAddresses` write-set node of lines 543-549. -/
def ordererAddressesValue (addresses : List String) : JsonV :=
  .obj [
    ("mod_policy", .s "/Channel/Orderer/Admins"),
    ("value", .obj [("addresses", .arr (addresses.map JsonV.s))]),
    ("version", .n 1)]

/-- Lines 493-549: the ordering service node handling.  `setOrder` models the
enumeration order of `list(orderer_addresses)` on line 546: CPython set
iteration order over strings depends on the per-process hash seed, so it is an
ambient parameter here, constrained in the theorems to enumerate exactly the
set's elements (a permutation of the distinct addresses). -/
def addOsn (setOrder : List String → List String) (nodes : List OrderingNode)
    (cu : JsonV) : JsonV :=
  let consenters := consentersOf nodes
  let orderer_addresses := addressSet nodes
  let cu := cu.mod "read_set" emptyObj (fun rs =>
    rs.mod "groups" emptyObj (fun g =>
      g.mod "Orderer" emptyObj (fun og =>
        og.mod "values" emptyObj (fun vs => vs.mod "ConsensusType" emptyObj id))))
  let cu := cu.mod "write_set" emptyObj (fun ws =>
    ws.mod "groups" emptyObj (fun g =>
      g.mod "Orderer" emptyObj (fun og =>
        og.mod "values" emptyObj (fun vs =>
          vs.put "ConsensusType" (consensusTypeValue consenters)))))
  let cu := cu.mod "read_set" emptyObj (fun rs =>
    rs.mod "values" emptyObj (fun vs => vs.mod "OrdererAddresses" emptyObj id))
  cu.mod "write_set" emptyObj (fun ws =>
    ws.mod "values" emptyObj (fun vs =>
      vs.put "OrdererAddresses" (ordererAddressesValue (setOrder orderer_addresses))))

/-- Lines 350-549: the full `config_update_json` built by `create`.  The
guards mirror Python truthiness: an empty string capability or batch timeout
and an empty or absent ACL dict contribute nothing, while
`ordering_service_nodes` is compared against `None` (line 493). -/
def buildConfigUpdate (setOrder : List String → List String)
    (opts : CreateOptions) : JsonV :=
  let cu := initialConfigUpdate opts.name opts.application_capability
  let cu := opts.organizations.foldl (fun cu msp_id => addOrganization msp_id cu) cu
  let cu := opts.policies.foldl (fun cu p => addPolicy p.1 p.2 cu) cu
  let cu := match opts.channel_capability with
    | some c => if c != "" then addChannelCapability c cu else cu
    | none => cu
  let cu := match opts.orderer_capability with
    | some o => if o != "" then addOrdererCapability o cu else cu
    | none => cu
  let cu := match opts.batch_size with
    | some b => addBatchSize b cu
    | none => cu
  let cu := match opts.batch_timeout with
    | some t => if t != "" then addBatchTimeout t cu else cu
    | none => cu
  let cu := match opts.acls with
    | some l => if l.isEmpty then cu else addAcls l cu
    | none => cu
  match opts.ordering_service_nodes with
  | some nodes => addOsn setOrder nodes cu
  | none => cu

/-- Lines 552-564 (and identically lines 681-693 of `compute_update`): the
config update envelope wrapped around a config update. -/
def mkEnvelopeJson (name : String) (config_update_json : JsonV) : JsonV :=
  .obj [("payload", .obj [
    ("header", .obj [("channel_header", .obj [
      ("channel_id", .s name), ("type", .n 2)])]),
    ("data", .obj [("config_update", config_update_json)])])]

/-- The envelope JSON produced by a `create` invocation. -/
def buildEnvelopeJson (setOrder : List String → List String)
    (opts : CreateOptions) : JsonV :=
  mkEnvelopeJson opts.name (buildConfigUpdate setOrder opts)

/-! ### Compare-and-write (lines 567-584, 628-643, 697-712) -/

/-- The observable outcome of the compare-and-write block: the `changed` flag
reported by `exit_json` and the target file's content afterwards. -/
structure WriteOutcome where
  changed : Bool
  file_after : Option FileData

/-- The compare-and-copy block shared verbatim by `create`, `fetch` and
`compute_update`: if the target exists, parse it and diff against the new
tree, treating any parse exception as `changed = True`; write only when
changed; if the target does not exist, write unconditionally. -/
def compareAndWrite (new_json : JsonV) (new_proto : FileData)
    (file : Option FileData) : WriteOutcome :=
  match file with
  | some existing =>
      let changed := match proto_to_json existing with
        | some original_json => diff_dicts original_json new_json
        | none => true
      { changed := changed
        file_after := if changed then some new_proto else some existing }
  | none => { changed := true, file_after := some new_proto }

/-- The `create` operation (lines 330-584) as a state transformer on the
target file, with console/identity resolution already performed. -/
def create (setOrder : List String → List String) (opts : CreateOptions)
    (file : Option FileData) : WriteOutcome :=
  let envJson := buildEnvelopeJson setOrder opts
  compareAndWrite envJson (json_to_proto envJson) file

/-- The tail of the `fetch` operation (lines 628-643): the fetched config has
been extracted to `config_json`; compare and copy against the target. -/
def fetchWrite (config_json : JsonV) (file : Option FileData) : WriteOutcome :=
  compareAndWrite config_json (json_to_proto config_json) file

/-! ### `compute_update` (lines 650-716) -/

/-- Modelled from the spec: the outcome of invoking the external
`configtxlator compute_update` tool — either a computed update, a
`CalledProcessError` whose stderr contains `no differences detected` (the
tool's report for two semantically identical snapshots), or any other
failure. -/
inductive ConfigtxlatorResult where
  | updateProto : JsonV → ConfigtxlatorResult
  | noDifferences : ConfigtxlatorResult
  | otherFailure : ConfigtxlatorResult

/-- The observable outcome of `compute_update`: whether the exception was
re-raised (`failed`, in which case the remaining fields are not reported),
the `changed` flag, whether the reported path was `None`, and the target
file's content afterwards. -/
structure ComputeOutcome where
  failed : Bool
  changed : Bool
  path_is_none : Bool
  file_after : Option FileData

/-- Lines 650-716: `compute_update`.  On `no differences detected`, an
existing target is removed and `changed=True, path=None` is reported, while a
missing target reports `changed=False, path=None`; any other tool failure is
re-raised; otherwise the computed update is wrapped in an envelope and
compare-and-written to the target. -/
def compute_update (name : String) (tool : ConfigtxlatorResult)
    (file : Option FileData) : ComputeOutcome :=
  match tool with
  | .noDifferences =>
      match file with
      | some _ => { failed := false, changed := true, path_is_none := true, file_after := none }
      | none => { failed := false, changed := false, path_is_none := true, file_after := none }
  | .otherFailure => { failed := true, changed := false, path_is_none := true, file_after := file }
  | .updateProto cu_json =>
      let envJson := mkEnvelopeJson name cu_json
      let w := compareAndWrite envJson (json_to_proto envJson) file
      { failed := false, changed := w.changed, path_is_none := false, file_after := w.file_after }

/-! ### Signature dedup (`sign_update`, lines 719-763, and
`sign_update_organizations`, lines 766-824) -/

/-- A signature of the envelope, reduced to the one field the module reads:
`signature_header.creator.mspid`. -/
structure Signature where
  mspid : String

/-- Modelled from the spec: the external `peer channel signconfigtx` signer,
invoked with a credential-scoped environment, appends exactly one signature
by the configured MSP ID to the envelope file. -/
def signerAppend (msp_id : String) (sigs : List Signature) : List Signature :=
  sigs ++ [{ mspid := msp_id }]

/-- Lines 737-739: the early-return scan of `sign_update` — true when some
existing signature's creator MSP ID equals `msp_id`. -/
def alreadySigned (msp_id : String) : List Signature → Bool
  | [] => false
  | sig :: rest => if msp_id = sig.mspid then true else alreadySigned msp_id rest

/-- The observable outcome of a signing operation: the reported `changed`
flag, the envelope's signatures afterwards, and which MSP IDs the external
signer was invoked for, in order. -/
structure SignOutcome where
  changed : Bool
  signatures_after : List Signature
  signer_invocations : List String

/-- Lines 719-763: `sign_update`.  If the envelope already carries a
signature for `msp_id`, exit with `changed=False` without invoking the
signer; otherwise invoke the signer (which appends one signature) and exit
with `changed=True`. -/
def sign_update (msp_id : String) (signatures : List Signature) : SignOutcome :=
  if alreadySigned msp_id signatures then
    { changed := false, signatures_after := signatures, signer_invocations := [] }
  else
    { changed := true
      signatures_after := signerAppend msp_id signatures
      signer_invocations := [msp_id] }

/-- Lines 789-791: the inner loop of `sign_update_organizations` — for each
existing signature, on an MSP ID match execute `continue`, which merely
advances the *inner* loop; control falls through to the signing code in every
case, so this function is constantly `true`. -/
def signLoopFallsThrough (msp_id : String) : List Signature → Bool
  | [] => true
  | sig :: rest =>
      if msp_id = sig.mspid then signLoopFallsThrough msp_id rest
      else signLoopFallsThrough msp_id rest

/-- Lines 766-824: `sign_update_organizations`.  The signatures list is read
from the envelope file once, before the loop; each organization for which the
inner scan falls through to the signing code gets one signer invocation
appending one signature; the operation always reports `changed=True`. -/
def sign_update_organizations (organizations : List String)
    (signatures : List Signature) : SignOutcome :=
  let step := fun (st : List Signature × List String) (msp_id : String) =>
    if signLoopFallsThrough msp_id signatures then
      (signerAppend msp_id st.1, st.2 ++ [msp_id])
    else st
  let fin := organizations.foldl step (signatures, [])
  { changed := true, signatures_after := fin.1, signer_invocations := fin.2 }

/-- The number of signatures carried by the envelope for a given MSP ID. -/
def countSignatures (msp_id : String) (sigs : List Signature) : Nat :=
  sigs.countP (fun sig => sig.mspid == msp_id)

/-! ### Temporary resources (claim C8) -/

/-- The temporary resources materialized by the operations: the temporary
block/update file from `get_temp_file`, the temporary MSP credential
directory from `convert_identity_to_msp_path`, and the temporary fabric
config directory from `get_fabric_cfg_path` (numbered per loop iteration). -/
inductive TempRes where
  | blockFile : TempRes
  | mspDir : TempRes
  | cfgDir : Nat → TempRes
deriving DecidableEq

/-- Which of `sign_update`'s effectful steps fail.  Modelled from the spec:
each helper (`convert_identity_to_msp_path`, `get_fabric_cfg_path`, both
outside the given sources) either succeeds having materialized its directory
or raises having materialized nothing; the signer subprocess may raise. -/
structure SignFailures where
  convert_identity_fails : Bool
  get_fabric_cfg_fails : Bool
  signer_fails : Bool

/-- Whether the operation completed without raising, and which temporary
resources remain on disk when it returns (normally or by exception). -/
structure ResOutcome where
  ok : Bool
  leftover : List TempRes

/-- Lines 742-763: the temporary-resource lifecycle of `sign_update`.  The
MSP directory is materialized on line 742 and the fabric config directory on
line 743, both *before* the `try` block is entered on line 744; the `finally`
on lines 761-763 removes both.  If `get_fabric_cfg_path` raises, the already
materialized MSP directory is never removed. -/
def sign_update_resources (f : SignFailures) : ResOutcome :=
  if f.convert_identity_fails then { ok := false, leftover := [] }
  else if f.get_fabric_cfg_fails then { ok := false, leftover := [TempRes.mspDir] }
  else
    { ok := !f.signer_fails
      leftover := (([TempRes.mspDir, TempRes.cfgDir 0].erase TempRes.mspDir).erase (TempRes.cfgDir 0)) }

/-- Which of the effectful steps of `fetch` / `compute_update` fail: the
temporary-file creation itself, and the body of the `try` block. -/
structure TempFileFailures where
  get_temp_file_fails : Bool
  body_fails : Bool

/-- Lines 611-647: the temporary-file lifecycle of `fetch` — `get_temp_file`
immediately followed by `try`, with `os.remove` in the `finally`. -/
def fetch_resources (f : TempFileFailures) : ResOutcome :=
  if f.get_temp_file_fails then { ok := false, leftover := [] }
  else { ok := !f.body_fails, leftover := [TempRes.blockFile].erase TempRes.blockFile }

/-- Lines 658-716: the temporary-file lifecycle of `compute_update` — same
shape as `fetch`. -/
def compute_update_resources (f : TempFileFailures) : ResOutcome :=
  if f.get_temp_file_fails then { ok := false, leftover := [] }
  else { ok := !f.body_fails, leftover := [TempRes.blockFile].erase TempRes.blockFile }

/-- Lines 787-824: the temporary-resource lifecycle of the per-organization
loop of `sign_update_organizations`.  Each iteration materializes one fabric
config directory (`get_fabric_cfg_path`, line 795) and removes it in its
`finally` (line 822); a raising iteration aborts the loop with the exception
propagating.  One `(cfg_fails, signer_fails)` pair per organization. -/
def sign_update_organizations_resources : List (Bool × Bool) → ResOutcome
  | [] => { ok := true, leftover := [] }
  | (cfg_fails, signer_fails) :: rest =>
      if cfg_fails then { ok := false, leftover := [] }
      else if signer_fails then
        { ok := false, leftover := [TempRes.cfgDir 0].erase (TempRes.cfgDir 0) }
      else
        let r := sign_update_organizations_resources rest
        { ok := r.ok, leftover := ([TempRes.cfgDir 0].erase (TempRes.cfgDir 0)) ++ r.leftover }

/-! ### Concrete sample inputs used by counterexamples and witnesses -/

/-- The identity enumeration order for `list(orderer_addresses)`. -/
def idOrder : List String → List String := fun l => l

/-- A reversed enumeration order for `list(orderer_addresses)` — like any
permutation, a possible CPython set iteration order under some hash seed. -/
def revOrder : List String → List String := fun l => l.reverse

def osnNode1 : OrderingNode :=
  { api_url := "https://o1:7050", client_tls_cert := none,
    server_tls_cert := none, tls_cert := "certA" }

def osnNode2 : OrderingNode :=
  { api_url := "https://o2:7050", client_tls_cert := none,
    server_tls_cert := none, tls_cert := "certB" }

def osnNode3 : OrderingNode :=
  { api_url := "https://o3:7050", client_tls_cert := none,
    server_tls_cert := none, tls_cert := "certC" }

/-- A `create` input with two ordering service nodes (hence two distinct
orderer addresses). -/
def twoNodeOpts : CreateOptions :=
  { name := "mychannel"
    organizations := ["Org1MSP"]
    policies := [("Admins", .obj [("type", .n 1)])]
    application_capability := "V2_0"
    channel_capability := none
    orderer_capability := none
    batch_size := none
    batch_timeout := none
    acls := none
    ordering_service_nodes := some [osnNode1, osnNode2] }

/-- A `create` input exercising every option: organizations, policies, all
three capability scopes, batch size and timeout, ACLs, and an ordering
service node list. -/
def fullOpts : CreateOptions :=
  { name := "mychannel"
    organizations := ["Org1MSP"]
    policies := [("Admins", .obj [("type", .n 1)])]
    application_capability := "V2_0"
    channel_capability := some "V2_0"
    orderer_capability := some "V2_0"
    batch_size := some { max_message_count := some 500
                         absolute_max_bytes := some 10485760
                         preferred_max_bytes := some 2097152 }
    batch_timeout := some "2s"
    acls := some [("peer_propose", "/Channel/Application/Writers")]
    ordering_service_nodes := some [osnNode1] }

/-- A `create` input with three ordering service nodes. -/
def threeNodeOpts : CreateOptions :=
  { name := "mychannel"
    organizations := ["Org1MSP"]
    policies := [("Admins", .obj [("type", .n 1)])]
    application_capability := "V2_0"
    channel_capability := none
    orderer_capability := none
    batch_size := none
    batch_timeout := none
    acls := none
    ordering_service_nodes := some [osnNode1, osnNode2, osnNode3] }

/-- An ordering service node whose API URL carries no explicit port. -/
def osnNodeNoPort : OrderingNode :=
  { api_url := "https://o1", client_tls_cert := none,
    server_tls_cert := none, tls_cert := "certA" }

/-! ## Helper lemmas -/

theorem countSignatures_append_self (msp_id : String) (sigs : List Signature) :
    countSignatures msp_id (signerAppend msp_id sigs) = countSignatures msp_id sigs + 1 := by
  simp [countSignatures, signerAppend, List.countP_append, List.countP_cons]

theorem alreadySigned_iff (msp_id : String) (sigs : List Signature) :
    alreadySigned msp_id sigs = true ↔ 0 < countSignatures msp_id sigs := by
  induction sigs with
  | nil => simp [alreadySigned, countSignatures]
  | cons sig rest ih =>
      by_cases h : msp_id = sig.mspid
      · simp [alreadySigned, h, countSignatures, List.countP_cons]
      · have h2 : ¬ sig.mspid = msp_id := fun hh => h hh.symm
        simp [alreadySigned, h, countSignatures, List.countP_cons, h2] at ih ⊢
        exact ih

theorem alreadySigned_signerAppend (msp_id : String) (sigs : List Signature) :
    alreadySigned msp_id (signerAppend msp_id sigs) = true := by
  rw [alreadySigned_iff, countSignatures_append_self]
  omega

theorem consentersOf_aux (nodes : List OrderingNode) (acc : List JsonV) :
    nodes.foldl (fun consenters node => consenters ++ [consenterOf node]) acc
      = acc ++ nodes.map consenterOf := by
  induction nodes generalizing acc with
  | nil => simp
  | cons node rest ih => simp [List.foldl_cons, ih]

theorem consentersOf_eq_map (nodes : List OrderingNode) :
    consentersOf nodes = nodes.map consenterOf := by
  simpa using consentersOf_aux nodes []

theorem addressSet_aux_mem (nodes : List OrderingNode) (acc : List String) (x : String) :
    (x ∈ nodes.foldl (fun orderer_addresses node =>
        if hostPortOf node ∈ orderer_addresses then orderer_addresses
        else orderer_addresses ++ [hostPortOf node]) acc)
      ↔ x ∈ acc ∨ x ∈ nodes.map hostPortOf := by
  induction nodes generalizing acc with
  | nil => simp
  | cons node rest ih =>
      simp only [List.foldl_cons, List.map_cons, List.mem_cons]
      by_cases hm : hostPortOf node ∈ acc
      · rw [if_pos hm, ih]
        constructor
        · rintro (h | h)
          · tauto
          · tauto
        · rintro (h | h | h)
          · tauto
          · subst h; exact Or.inl hm
          · tauto
      · rw [if_neg hm, ih]
        simp only [List.mem_append, List.mem_singleton]
        tauto

theorem addressSet_aux_nodup (nodes : List OrderingNode) (acc : List String) (h : acc.Nodup) :
    (nodes.foldl (fun orderer_addresses node =>
        if hostPortOf node ∈ orderer_addresses then orderer_addresses
        else orderer_addresses ++ [hostPortOf node]) acc).Nodup := by
  induction nodes generalizing acc with
  | nil => simpa
  | cons node rest ih =>
      simp only [List.foldl_cons]
      by_cases hm : hostPortOf node ∈ acc
      · rw [if_pos hm]; exact ih acc h
      · rw [if_neg hm]
        refine ih _ ?_
        simp [List.nodup_append, h, hm]

theorem addressSet_mem (nodes : List OrderingNode) (x : String) :
    x ∈ addressSet nodes ↔ x ∈ nodes.map hostPortOf := by
  simpa [addressSet] using addressSet_aux_mem nodes [] x

theorem addressSet_nodup (nodes : List OrderingNode) : (addressSet nodes).Nodup :=
  addressSet_aux_nodup nodes [] (by simp)

/-! ## Claim theorems -/

/-- C1: evaluation of `sign_update_organizations` at an envelope already
signed by `Org1MSP` with `organizations = [Org1MSP]`.  Contrary to the claim,
the organization is not skipped: the external signer is invoked for it and a
second signature for the same MSP ID is appended (the envelope ends up with
two), because the inner scan of lines 789-791 falls through to the signing
code for every organization — its `continue` only advances the inner loop. -/
theorem c1_already_signed_org_signed_again :
    (sign_update_organizations ["Org1MSP"] [{ mspid := "Org1MSP" }]).signer_invocations
      = ["Org1MSP"] ∧
    countSignatures "Org1MSP"
      (sign_update_organizations ["Org1MSP"] [{ mspid := "Org1MSP" }]).signatures_after = 2 ∧
    (∀ msp_id sigs, signLoopFallsThrough msp_id sigs = true) := by
  refine ⟨rfl, rfl, ?_⟩
  intro msp_id sigs
  induction sigs with
  | nil => rfl
  | cons sig rest ih => simp [signLoopFallsThrough, ih]

/-- C2 counterexample: when the external differ reports no differences and a
stale target file exists, `compute_update` reports `changed=True` (after
removing the file), not `changed=false` as the claim states. -/
theorem c2_stale_file_reports_changed :
    (compute_update "mychannel" ConfigtxlatorResult.noDifferences
      (some (FileData.proto emptyObj))).changed ≠ false := by
  simp [compute_update]

/-- C2 amended: on a "no differences" result (the tool's report for two
identical snapshots), `compute_update` never fails, always reports
`path=None`, and ends with no target file on disk (a stale target is
removed); `changed` is `false` exactly when no stale target existed, and
`true` when a stale target was removed. -/
theorem c2_no_differences_behaviour (name : String) (file : Option FileData) :
    (compute_update name ConfigtxlatorResult.noDifferences file).failed = false ∧
    (compute_update name ConfigtxlatorResult.noDifferences file).path_is_none = true ∧
    (compute_update name ConfigtxlatorResult.noDifferences file).file_after = none ∧
    (compute_update name ConfigtxlatorResult.noDifferences file).changed = file.isSome := by
  cases file <;> simp [compute_update]

/-- C3: the serialized output of `create` is not stable across set-enumeration
orders.  `revOrder` enumerates the orderer-address set in reverse — a valid
CPython set iteration order under some hash seed (any permutation of the
distinct elements is) — and with two distinct orderer addresses the two
enumeration orders yield different `addresses` lists and hence different
envelopes, refuting byte-identical output across invocations in distinct
interpreter processes. -/
theorem c3_set_order_dependence :
    (∀ l : List String, (revOrder l).Perm l) ∧
    (buildEnvelopeJson idOrder twoNodeOpts).path
      ["payload", "data", "config_update", "write_set", "values", "OrdererAddresses",
       "value", "addresses"] = some (.arr [.s "o1:7050", .s "o2:7050"]) ∧
    (buildEnvelopeJson revOrder twoNodeOpts).path
      ["payload", "data", "config_update", "write_set", "values", "OrdererAddresses",
       "value", "addresses"] = some (.arr [.s "o2:7050", .s "o1:7050"]) ∧
    buildEnvelopeJson idOrder twoNodeOpts ≠ buildEnvelopeJson revOrder twoNodeOpts := by
  refine ⟨fun l => List.reverse_perm l, rfl, rfl, ?_⟩
  intro h
  have h1 : jeq (buildEnvelopeJson idOrder twoNodeOpts)
      (buildEnvelopeJson revOrder twoNodeOpts) = false := by rfl
  rw [h, jeq_refl] at h1
  simp at h1

/-- C4: signing twice with the same MSP ID yields exactly one signature for
that MSP ID, and the second call reports `changed=False` without invoking the
external signer, for every envelope satisfying the uniqueness invariant (at
most one existing signature per MSP ID). -/
theorem c4_sign_update_dedup (msp_id : String) (sigs : List Signature)
    (h : countSignatures msp_id sigs ≤ 1) :
    countSignatures msp_id
      (sign_update msp_id (sign_update msp_id sigs).signatures_after).signatures_after = 1 ∧
    (sign_update msp_id (sign_update msp_id sigs).signatures_after).changed = false ∧
    (sign_update msp_id (sign_update msp_id sigs).signatures_after).signer_invocations = [] := by
  cases hs : alreadySigned msp_id sigs with
  | true =>
      have hc : 0 < countSignatures msp_id sigs := (alreadySigned_iff _ _).mp hs
      refine ⟨?_, ?_, ?_⟩ <;> simp [sign_update, hs]
      omega
  | false =>
      have hc : countSignatures msp_id sigs = 0 := by
        by_contra hne
        have : 0 < countSignatures msp_id sigs := Nat.pos_of_ne_zero hne
        rw [(alreadySigned_iff _ _).mpr this] at hs
        cases hs
      refine ⟨?_, ?_, ?_⟩ <;>
        simp [sign_update, hs, alreadySigned_signerAppend, countSignatures_append_self, hc]

/-- C4 witness: the double-signing theorem at `Org1MSP` and an initially
unsigned envelope. -/
theorem c4_sign_update_dedup_witness :
    countSignatures "Org1MSP" ([] : List Signature) ≤ 1 ∧
    (countSignatures "Org1MSP"
      (sign_update "Org1MSP" (sign_update "Org1MSP" []).signatures_after).signatures_after = 1 ∧
    (sign_update "Org1MSP" (sign_update "Org1MSP" []).signatures_after).changed = false ∧
    (sign_update "Org1MSP" (sign_update "Org1MSP" []).signatures_after).signer_invocations = []) :=
  ⟨by simp [countSignatures], c4_sign_update_dedup "Org1MSP" [] (by simp [countSignatures])⟩

/-- C5 counterexample: with two distinct orderer addresses, a second `create`
under a different set-enumeration order (a different interpreter hash seed)
reports `changed=true` again even though the inputs are identical and the
target file is exactly what the first invocation wrote. -/
theorem c5_second_create_can_report_changed :
    (create idOrder twoNodeOpts none).changed = true ∧
    (create revOrder twoNodeOpts (create idOrder twoNodeOpts none).file_after).changed = true :=
  ⟨rfl, rfl⟩

/-- C5 amended: under one fixed set-enumeration order, `create` on a missing
target reports `changed=true`, a second identical invocation reports
`changed=false` and leaves the file unchanged, and in general the target file
is written only when the operation reports a change. -/
theorem c5_create_idempotent (setOrder : List String → List String) (opts : CreateOptions) :
    (create setOrder opts none).changed = true ∧
    (create setOrder opts (create setOrder opts none).file_after).changed = false ∧
    (create setOrder opts (create setOrder opts none).file_after).file_after
      = (create setOrder opts none).file_after ∧
    (∀ file, (create setOrder opts file).changed = false →
      (create setOrder opts file).file_after = file) := by
  refine ⟨rfl, ?_, ?_, ?_⟩
  · simp [create, compareAndWrite, json_to_proto, proto_to_json, diff_dicts, jeq_refl]
  · simp [create, compareAndWrite, json_to_proto, proto_to_json, diff_dicts, jeq_refl]
  · intro file h
    cases file with
    | none => simp [create, compareAndWrite] at h
    | some fd =>
        simp only [create, compareAndWrite] at h ⊢
        simp [h]

/-- C5 witness: the idempotence theorem at the two-node input under the
identity enumeration order, including the write-gating implication
instantiated at the file produced by the first invocation. -/
theorem c5_create_idempotent_witness :
    (create idOrder twoNodeOpts (create idOrder twoNodeOpts none).file_after).changed = false ∧
    (create idOrder twoNodeOpts (create idOrder twoNodeOpts none).file_after).file_after
      = (create idOrder twoNodeOpts none).file_after :=
  ⟨(c5_create_idempotent idOrder twoNodeOpts).2.1,
   (c5_create_idempotent idOrder twoNodeOpts).2.2.2 _
     (c5_create_idempotent idOrder twoNodeOpts).2.1⟩

/-- C6: when the target file exists but does not parse as the expected message
type, `create`, `fetch` and `compute_update` all treat it as no prior state:
they report `changed=true`, overwrite the target with the new content, and do
not fail. -/
theorem c6_parse_failure_is_changed (setOrder : List String → List String)
    (opts : CreateOptions) (config_json : JsonV) (name : String) (cu_json : JsonV) :
    (create setOrder opts (some FileData.garbage)).changed = true ∧
    (create setOrder opts (some FileData.garbage)).file_after
      = some (json_to_proto (buildEnvelopeJson setOrder opts)) ∧
    (fetchWrite config_json (some FileData.garbage)).changed = true ∧
    (fetchWrite config_json (some FileData.garbage)).file_after
      = some (json_to_proto config_json) ∧
    (compute_update name (ConfigtxlatorResult.updateProto cu_json)
      (some FileData.garbage)).failed = false ∧
    (compute_update name (ConfigtxlatorResult.updateProto cu_json)
      (some FileData.garbage)).changed = true ∧
    (compute_update name (ConfigtxlatorResult.updateProto cu_json)
      (some FileData.garbage)).file_after = some (json_to_proto (mkEnvelopeJson name cu_json)) := by
  refine ⟨?_, ?_, ?_, ?_, ?_, ?_, ?_⟩ <;>
    simp [create, fetchWrite, compute_update, compareAndWrite, proto_to_json, json_to_proto]

/-- C7: the builder emits exactly one consenter per input node in input order
(duplicates kept), while the orderer-address set is the deduplicated set of
`host:port` projections — any valid enumeration of it has no duplicates and
the same elements as the projections of the node list; and at the three-node
example the built tree carries exactly three consenters in input order and
the three addresses, with input duplication collapsing only for addresses. -/
theorem c7_consenters_and_addresses (setOrder : List String → List String)
    (hperm : ∀ l : List String, (setOrder l).Perm l) (nodes : List OrderingNode) :
    consentersOf nodes = nodes.map consenterOf ∧
    (consentersOf nodes).length = nodes.length ∧
    (setOrder (addressSet nodes)).Nodup ∧
    (setOrder (addressSet nodes)).toFinset = (nodes.map hostPortOf).toFinset ∧
    (consentersOf [osnNode1, osnNode2, osnNode3]).length = 3 ∧
    addressSet [osnNode1, osnNode2, osnNode3] = ["o1:7050", "o2:7050", "o3:7050"] ∧
    (consentersOf [osnNode1, osnNode1, osnNode2, osnNode3]).length = 4 ∧
    addressSet [osnNode1, osnNode1, osnNode2, osnNode3] = ["o1:7050", "o2:7050", "o3:7050"] ∧
    (buildConfigUpdate idOrder threeNodeOpts).path
      ["write_set", "groups", "Orderer", "values", "ConsensusType", "value", "metadata",
       "consenters"] = some (.arr (consentersOf [osnNode1, osnNode2, osnNode3])) ∧
    (buildConfigUpdate idOrder threeNodeOpts).path
      ["write_set", "values", "OrdererAddresses", "value", "addresses"]
      = some (.arr [.s "o1:7050", .s "o2:7050", .s "o3:7050"]) := by
  refine ⟨consentersOf_eq_map nodes, ?_, ?_, ?_, rfl, rfl, rfl, rfl, rfl, rfl⟩
  · rw [consentersOf_eq_map]; simp
  · exact ((hperm _).nodup_iff).mpr (addressSet_nodup nodes)
  · rw [List.toFinset_eq_of_perm _ _ (hperm _)]
    ext x
    simp [List.mem_toFinset, addressSet_mem]

/-- C7 witness: the consenter/address theorem at the identity enumeration
order and a single-node list. -/
theorem c7_consenters_and_addresses_witness :
    consentersOf [osnNode1] = [osnNode1].map consenterOf ∧
    (idOrder (addressSet [osnNode1])).Nodup :=
  ⟨(c7_consenters_and_addresses idOrder (fun l => List.Perm.refl l) [osnNode1]).1,
   (c7_consenters_and_addresses idOrder (fun l => List.Perm.refl l) [osnNode1]).2.2.1⟩

/-- C8 counterexample: on the exit path of `sign_update` where
`get_fabric_cfg_path` (line 743) raises after `convert_identity_to_msp_path`
(line 742) has already materialized the temporary MSP credential directory,
the `try` block is never entered and the MSP directory is not removed. -/
theorem c8_msp_dir_can_leak :
    (sign_update_resources
      { convert_identity_fails := false, get_fabric_cfg_fails := true,
        signer_fails := false }).leftover ≠ [] := by
  simp [sign_update_resources]

/-- C8 amended: `fetch` and `compute_update` remove their temporary file on
every exit path, and `sign_update_organizations` removes every per-iteration
fabric config directory on every exit path; `sign_update` removes both of its
temporary directories on every exit path except the one where the fabric
config directory creation itself raises after the MSP directory was
materialized, in which case exactly the MSP directory remains. -/
theorem c8_cleanup_on_exit :
    (∀ f, (fetch_resources f).leftover = []) ∧
    (∀ f, (compute_update_resources f).leftover = []) ∧
    (∀ l, (sign_update_organizations_resources l).leftover = []) ∧
    (∀ f, (sign_update_resources f).leftover = [] ∨
      (f.convert_identity_fails = false ∧ f.get_fabric_cfg_fails = true ∧
        (sign_update_resources f).leftover = [TempRes.mspDir])) := by
  refine ⟨?_, ?_, ?_, ?_⟩
  · rintro ⟨g, b⟩; cases g <;> cases b <;> rfl
  · rintro ⟨g, b⟩; cases g <;> cases b <;> rfl
  · intro l
    induction l with
    | nil => rfl
    | cons p rest ih =>
        rcases p with ⟨cfg, s⟩
        cases cfg <;> cases s <;> simp [sign_update_organizations_resources, ih]
  · rintro ⟨a, b, c⟩
    cases a <;> cases b <;> cases c <;>
      first
        | exact Or.inl rfl
        | exact Or.inr ⟨rfl, rfl, rfl⟩

/-- C9 counterexample: in a `create` with every option supplied, the `ACLs`
value in the write set carries version `0`, not `1` as the claim requires of
every written value, and the `Capabilities` value inside the `Application`
group carries no version field at all (protobuf default `0`). -/
theorem c9_acls_version_zero :
    (buildConfigUpdate idOrder fullOpts).path
      ["write_set", "groups", "Application", "values", "ACLs", "version"] = some (.n 0) ∧
    (buildConfigUpdate idOrder fullOpts).path
      ["write_set", "groups", "Application", "values", "ACLs", "version"] ≠ some (.n 1) ∧
    (buildConfigUpdate idOrder fullOpts).path
      ["write_set", "groups", "Application", "values", "Capabilities", "version"] = none := by
  refine ⟨rfl, ?_, rfl⟩
  rw [show (buildConfigUpdate idOrder fullOpts).path
      ["write_set", "groups", "Application", "values", "ACLs", "version"] = some (.n 0) from rfl]
  simp

/-- C9 amended: the version numbers as the builder actually writes them, at a
`create` invocation with every option supplied: the channel-scope and
orderer-scope values (channel `Capabilities`, `OrdererAddresses`, and the
`Orderer` group's `Capabilities`, `BatchSize`, `BatchTimeout`,
`ConsensusType`) carry version `1`, while the values inside the newly created
`Application` group carry version `0` (`ACLs` explicitly, its `Capabilities`
by omission), the increment for that subtree being carried by the
`Application` group itself at version `1`. -/
theorem c9_versions_as_built :
    (buildConfigUpdate idOrder fullOpts).path
      ["write_set", "values", "Capabilities", "version"] = some (.n 1) ∧
    (buildConfigUpdate idOrder fullOpts).path
      ["write_set", "groups", "Orderer", "values", "Capabilities", "version"] = some (.n 1) ∧
    (buildConfigUpdate idOrder fullOpts).path
      ["write_set", "groups", "Orderer", "values", "BatchSize", "version"] = some (.n 1) ∧
    (buildConfigUpdate idOrder fullOpts).path
      ["write_set", "groups", "Orderer", "values", "BatchTimeout", "version"] = some (.n 1) ∧
    (buildConfigUpdate idOrder fullOpts).path
      ["write_set", "groups", "Orderer", "values", "ConsensusType", "version"] = some (.n 1) ∧
    (buildConfigUpdate idOrder fullOpts).path
      ["write_set", "values", "OrdererAddresses", "version"] = some (.n 1) ∧
    (buildConfigUpdate idOrder fullOpts).path
      ["write_set", "groups", "Application", "version"] = some (.n 1) ∧
    (buildConfigUpdate idOrder fullOpts).path
      ["write_set", "groups", "Application", "values", "ACLs", "version"] = some (.n 0) ∧
    (buildConfigUpdate idOrder fullOpts).path
      ["write_set", "groups", "Application", "values", "Capabilities", "version"] = none :=
  ⟨rfl, rfl, rfl, rfl, rfl, rfl, rfl, rfl, rfl⟩

/-- C10: for a node whose API URL carries no explicit port, both projections
use port 443 — the consenter entry carries host `urlparse(...).hostname` and
port `443`, and the orderer-address entry is that same host joined with the
rendering of the same port value `443`. -/
theorem c10_default_port_443 (node : OrderingNode) (h : urlPort node.api_url = none) :
    (consenterOf node).get? "host" = some (.s (urlHostname node.api_url)) ∧
    (consenterOf node).get? "port" = some (.n 443) ∧
    hostPortOf node = urlHostname node.api_url ++ ":" ++ toString 443 := by
  refine ⟨rfl, ?_, ?_⟩
  · have e : (consenterOf node).get? "port"
        = some (.n (pyOrNat (urlPort node.api_url) 443)) := rfl
    rw [e, h]
    rfl
  · show urlHostname node.api_url ++ ":" ++ toString (pyOrNat (urlPort node.api_url) 443)
      = urlHostname node.api_url ++ ":" ++ toString 443
    rw [h]
    rfl

/-- C10 witness: the default-port theorem at the URL `https://o1`. -/
theorem c10_default_port_443_witness :
    urlPort osnNodeNoPort.api_url = none ∧
    ((consenterOf osnNodeNoPort).get? "host"
      = some (.s (urlHostname osnNodeNoPort.api_url)) ∧
    (consenterOf osnNodeNoPort).get? "port" = some (.n 443) ∧
    hostPortOf osnNodeNoPort = urlHostname osnNodeNoPort.api_url ++ ":" ++ toString 443) :=
  ⟨rfl, c10_default_port_443 osnNodeNoPort rfl⟩

end ChannelConfig
